import Mathlib

/-!
Shallow embedding of `src/lib/supabase.ts` (KODEX): the session cache
(`sessionManager`) and the auth facade (`authService`).

Modelling conventions:
* Browser `localStorage` is a record `Storage` with one field per key the
  source touches: `kodex-session`, `kodex-auth`, `kodex-auth-timestamp`,
  `kodex-session-active`. An absent key is `none`.
* The `kodex-session` slot holds either a string that fails `JSON.parse`
  (`StoredBlob.malformed`) or a parsed record (`StoredBlob.record`).
* JavaScript truthiness is explicit: an optional object is truthy iff
  present; an optional string is truthy iff present and nonempty; an
  optional number is truthy iff present and nonzero.
* `Date.now()` is a `Nat` parameter `now` in milliseconds. The source's
  `Date.now() / 1000 > expires_at` uses real division; for integer
  `expires_at` this is equivalent to `now > 1000 * expires_at`.
* External SDK calls are oracles: `ExtResult` distinguishes a success
  envelope, an error envelope (`error` field set), and a thrown
  exception / network failure (promise rejection).
* Fallible facade operations return `Except String (α × Storage)`;
  `.error` models a thrown exception reaching the caller.
-/

namespace Kodex

/-- An authenticated user, consumed as an opaque object (always truthy). -/
structure User where
  id : String
  deriving Repr, DecidableEq

/-- The session record shape handled by `sessionManager`: the fields read in
`saveSession` (lines 42-50) plus the cache-write timestamp `saved_at`.
Every field is optional because the source treats sessions as `any`. -/
structure SessionRecord where
  user : Option User := none
  access_token : Option String := none
  refresh_token : Option String := none
  expires_at : Option Int := none
  expires_in : Option Int := none
  token_type : Option String := none
  saved_at : Option Int := none
  deriving Repr, DecidableEq

/-- Content of the `kodex-session` storage slot: either a string
`JSON.parse` rejects, or a parsed session record. -/
inductive StoredBlob where
  | malformed : StoredBlob
  | record : SessionRecord → StoredBlob
  deriving Repr, DecidableEq

/-- The four `localStorage` slots this module touches. -/
structure Storage where
  session : Option StoredBlob := none
  auth : Option String := none
  authTimestamp : Option String := none
  sessionActive : Option String := none
  deriving Repr, DecidableEq

/-- Storage at the beginning of a storage lifetime: every slot absent. -/
def emptyStorage : Storage := {}

/-- JS truthiness of an optional string: `undefined`, `null` and `""` are
falsy. -/
def truthyStr : Option String → Bool
  | none => false
  | some s => s != ""

/-- JS truthiness of an optional number: `undefined`, `null` and `0` are
falsy. -/
def truthyInt : Option Int → Bool
  | none => false
  | some e => e != 0

/-- Outcome of an external SDK call: success envelope, error envelope, or a
thrown exception (network failure). -/
inductive ExtResult (α : Type) where
  | ok : α → ExtResult α
  | err : String → ExtResult α
  | thrown : String → ExtResult α
  deriving Repr, DecidableEq

/-- `sessionManager.clearSession` (lines 96-108): removes all four keys. -/
def clearSession (_s : Storage) : Storage :=
  { session := none, auth := none, authTimestamp := none, sessionActive := none }

/-- `sessionManager.saveSession` (lines 39-61): a falsy (`null`/`undefined`)
session is a no-op; otherwise serialize the six session fields plus
`saved_at := Date.now()` into `kodex-session`, stamp
`kodex-auth-timestamp`, and set `kodex-session-active` to `"true"`. -/
def saveSession (session : Option SessionRecord) (now : Nat) (s : Storage) : Storage :=
  match session with
  | none => s
  | some sess =>
      { s with
        session := some (StoredBlob.record
          { user := sess.user
            access_token := sess.access_token
            refresh_token := sess.refresh_token
            expires_at := sess.expires_at
            expires_in := sess.expires_in
            token_type := sess.token_type
            saved_at := some (now : Int) })
        authTimestamp := some (toString now)
        sessionActive := some "true" }

/-- `sessionManager.getStoredSession` (lines 64-93): returns the parsed
record and the storage after the call. Empty slot returns `null` without
touching storage; a parse failure, a record with a falsy `user` or
`access_token`, or a truthy `expires_at` earlier than `Date.now()/1000`
each clear the whole session state and return `null`. -/
def getStoredSession (now : Nat) (s : Storage) : Option SessionRecord × Storage :=
  match s.session with
  | none => (none, s)
  | some StoredBlob.malformed => (none, clearSession s)
  | some (StoredBlob.record r) =>
      if !r.user.isSome || !truthyStr r.access_token then
        (none, clearSession s)
      else if truthyInt r.expires_at && decide ((now : Int) > 1000 * r.expires_at.getD 0) then
        (none, clearSession s)
      else
        (some r, s)

/-- `sessionManager.isFreshSession` (lines 131-136): `!localStorage.getItem`
— truthy only when the `kodex-session-active` value is absent or `""`. -/
def isFreshSession (s : Storage) : Bool :=
  match s.sessionActive with
  | none => true
  | some str => str == ""

/-- `sessionManager.markSessionActive` (lines 139-143). -/
def markSessionActive (s : Storage) : Storage :=
  { s with sessionActive := some "true" }

/-- Oracle for the two external calls `initializeSession` can make:
`supabase.auth.getSession()` and
`supabase.auth.refreshSession({refresh_token})` (keyed by the token sent). -/
structure InitEnv where
  getSession : ExtResult (Option SessionRecord)
  refreshSession : String → ExtResult (Option SessionRecord)

/-- `sessionManager.initializeSession` (lines 146-215). The one `Date.now()`
parameter serves every timestamp taken during the call. Branches, in source
order: error envelope from `getSession` falls back to the cache (no clear on
miss); a live session is written through; otherwise a cached session with a
truthy refresh token triggers a refresh — error envelope clears the cache,
a refreshed session is written through, a thrown refresh returns the stale
cached session; a thrown `getSession` falls back to the cache and clears on
miss. -/
def initializeSession (env : InitEnv) (now : Nat) (s : Storage) :
    Option SessionRecord × Storage :=
  match env.getSession with
  | ExtResult.err _ =>
      match getStoredSession now s with
      | (some st, s') => (some st, s')
      | (none, s') => (none, s')
  | ExtResult.ok (some session) =>
      (some session, saveSession (some session) now s)
  | ExtResult.ok none =>
      match getStoredSession now s with
      | (some st, s') =>
          if truthyStr st.refresh_token then
            match env.refreshSession (st.refresh_token.getD "") with
            | ExtResult.err _ => (none, clearSession s')
            | ExtResult.ok (some rs) => (some rs, saveSession (some rs) now s')
            | ExtResult.ok none => (none, s')
            | ExtResult.thrown _ => (some st, s')
          else (none, s')
      | (none, s') => (none, s')
  | ExtResult.thrown _ =>
      match getStoredSession now s with
      | (some st, s') => (some st, s')
      | (none, s') => (none, clearSession s')

/-- `authService.signOut` (lines 297-317): calls external sign-out, clears
the cache on every path (success envelope, error envelope, thrown), and
returns normally in each case. -/
def signOut (outcome : ExtResult Unit) (s : Storage) :
    Except String (Unit × Storage) :=
  match outcome with
  | ExtResult.ok _ => Except.ok ((), clearSession s)
  | ExtResult.err _ => Except.ok ((), clearSession s)
  | ExtResult.thrown _ => Except.ok ((), clearSession s)

/-- `authService.getCurrentUser` (lines 319-339): success envelope returns
`data.user`; an error envelope or a thrown call falls back to
`getStoredSession()?.user || null`. -/
def getCurrentUser (outcome : ExtResult (Option User)) (now : Nat) (s : Storage) :
    Except String (Option User × Storage) :=
  match outcome with
  | ExtResult.ok u => Except.ok (u, s)
  | ExtResult.err _ =>
      match getStoredSession now s with
      | (stored, s') => Except.ok (stored.bind SessionRecord.user, s')
  | ExtResult.thrown _ =>
      match getStoredSession now s with
      | (stored, s') => Except.ok (stored.bind SessionRecord.user, s')

/-- `email.split('@')[0]`: the longest prefix before the first `'@'` — the
whole string when no `'@'` occurs (JS `split` then always yields the whole
string at index 0). -/
def localPart (email : String) : String :=
  String.mk (email.toList.takeWhile (fun c => c != '@'))

/-- Characters `encodeURIComponent` leaves unescaped:
`A-Z a-z 0-9 - _ . ! ~ * ' ( )`. -/
def uriUnreserved (c : Char) : Bool :=
  c.isAlpha || c.isDigit || ("-_.!~*'()".toList).contains c

/-- One hex digit, uppercase, as produced by `encodeURIComponent`. -/
def hexDigit (n : Nat) : Char :=
  ("0123456789ABCDEF".toList).getD n 'F'

/-- The UTF-8 bytes of one character, as byte values. -/
def utf8Bytes (c : Char) : List Nat :=
  let n := c.toNat
  if n < 0x80 then [n]
  else if n < 0x800 then [0xC0 + n / 64, 0x80 + n % 64]
  else if n < 0x10000 then [0xE0 + n / 4096, 0x80 + (n / 64) % 64, 0x80 + n % 64]
  else [0xF0 + n / 262144, 0x80 + (n / 4096) % 64, 0x80 + (n / 64) % 64, 0x80 + n % 64]

/-- Percent-escape of one byte value, e.g. `%2F`. -/
def byteEscape (b : Nat) : String :=
  "%" ++ String.singleton (hexDigit (b / 16)) ++ String.singleton (hexDigit (b % 16))

/-- JS `encodeURIComponent`: unreserved characters pass through, every
other character is UTF-8 percent-encoded. -/
def encodeURIComponent (s : String) : String :=
  s.toList.foldl
    (fun acc c =>
      if uriUnreserved c then acc.push c
      else acc ++ String.join ((utf8Bytes c).map byteEscape))
    ""

/-- The generated avatar URL of `signUp` (line 230). -/
def avatarUrl (name : String) : String :=
  "https://ui-avatars.com/api/?name=" ++ encodeURIComponent name ++ "&size=200&background=random"

/-- The metadata payload `signUp` sends (lines 228-246). `timezone` and
`created_at` come from the environment (`Intl` resolved timezone,
`new Date().toISOString()`), passed in as parameters. -/
structure SignUpMeta where
  full_name : String
  avatar_url : String
  bio : String
  location : String
  website : String
  company : String
  twitter_username : String
  github_username : String
  email_notifications : Bool
  marketing_emails : Bool
  security_alerts : Bool
  two_factor_enabled : Bool
  theme : String
  language : String
  timezone : String
  date_format : String
  created_at : String
  deriving Repr, DecidableEq

/-- Construction of the `signUp` metadata payload (lines 228-246):
`full_name` is `fullName || email.split('@')[0]` (JS `||`: an absent or
empty `fullName` falls back to the email's local part), and the same
expression feeds `encodeURIComponent` inside the avatar URL. -/
def signUpMeta (email : String) (fullName : Option String) (tz createdAt : String) :
    SignUpMeta :=
  let name : String :=
    match fullName with
    | some n => if n != "" then n else localPart email
    | none => localPart email
  { full_name := name
    avatar_url := avatarUrl name
    bio := ""
    location := ""
    website := ""
    company := ""
    twitter_username := ""
    github_username := ""
    email_notifications := true
    marketing_emails := false
    security_alerts := true
    two_factor_enabled := false
    theme := "system"
    language := "en"
    timezone := tz
    date_format := "MM/DD/YYYY"
    created_at := createdAt }

/-- The `{data}` envelope returned by external sign-up. -/
structure SignUpResp where
  user : Option User := none
  sessionData : Option SessionRecord := none
  deriving Repr, DecidableEq

/-- `authService.signUp` (lines 220-267): sends email, password and the
metadata payload to the external sign-up (the oracle takes the payload so
the request sent is observable); an error envelope or a thrown call is
rethrown; on success a returned session is written through to the cache. -/
def signUp (email password : String) (fullName : Option String) (tz createdAt : String)
    (env : String → String → SignUpMeta → ExtResult SignUpResp) (now : Nat) (s : Storage) :
    Except String (SignUpResp × Storage) :=
  match env email password (signUpMeta email fullName tz createdAt) with
  | ExtResult.err e => Except.error e
  | ExtResult.thrown e => Except.error e
  | ExtResult.ok d =>
      match d.sessionData with
      | some sess => Except.ok (d, saveSession (some sess) now s)
      | none => Except.ok (d, s)

/-- Stand-in for an arbitrary JS object passed as `updates.data`. -/
def MetaObj : Type := List (String × String)

instance : DecidableEq MetaObj := by
  unfold MetaObj
  infer_instance

/-- The `updates` argument of `updateProfile` (lines 341-360); every field
optional, as in the source type. -/
structure ProfileUpdates where
  full_name : Option String := none
  avatar_url : Option String := none
  bio : Option String := none
  location : Option String := none
  website : Option String := none
  company : Option String := none
  twitter_username : Option String := none
  github_username : Option String := none
  email_notifications : Option Bool := none
  marketing_emails : Option Bool := none
  security_alerts : Option Bool := none
  two_factor_enabled : Option Bool := none
  theme : Option String := none
  language : Option String := none
  timezone : Option String := none
  date_format : Option String := none
  password : Option String := none
  data : Option MetaObj := none

/-- What feeds the metadata update: `updates.data || updates` (line 383).
The payload sent is the spread of this value plus an `updated_at` stamp;
the spread itself is kept symbolic (no claim inspects it). -/
inductive UpdateData where
  | fromData : MetaObj → UpdateData
  | fromUpdates : ProfileUpdates → UpdateData

/-- The request `supabase.auth.updateUser` receives: either a password-only
update or a metadata update stamped with `updated_at`. -/
inductive UpdateRequest where
  | password : String → UpdateRequest
  | metadata : UpdateData → String → UpdateRequest

/-- Shared cache merge of `updateProfile` / `updatePassword` (lines 370-377,
431-438): when the envelope carries a user and the cache read yields a
stored session, overwrite its `user` and save it back. -/
def mergeUserIntoCache (u : Option User) (now : Nat) (s : Storage) : Storage :=
  match u with
  | some usr =>
      match getStoredSession now s with
      | (some st, s') => saveSession (some { st with user := some usr }) now s'
      | (none, s') => s'
  | none => s

/-- `authService.updateProfile` (lines 341-407). A truthy `password` field
issues a password-only external update; otherwise `updates.data || updates`
plus an `updated_at` stamp (`nowIso`) is sent as metadata. Either branch
rethrows an error envelope or a thrown call, merges a returned user into
the cache, and returns the envelope. -/
def updateProfile (updates : ProfileUpdates)
    (env : UpdateRequest → ExtResult (Option User)) (now : Nat) (nowIso : String)
    (s : Storage) : Except String (Option User × Storage) :=
  if truthyStr updates.password then
    match env (UpdateRequest.password (updates.password.getD "")) with
    | ExtResult.err e => Except.error e
    | ExtResult.thrown e => Except.error e
    | ExtResult.ok u => Except.ok (u, mergeUserIntoCache u now s)
  else
    let ud : UpdateData :=
      match updates.data with
      | some d => UpdateData.fromData d
      | none => UpdateData.fromUpdates updates
    match env (UpdateRequest.metadata ud nowIso) with
    | ExtResult.err e => Except.error e
    | ExtResult.thrown e => Except.error e
    | ExtResult.ok u => Except.ok (u, mergeUserIntoCache u now s)

/-- `authService.updatePassword` (lines 423-445): password-only external
update; rethrows an error envelope or a thrown call; merges a returned user
into the cache; returns the envelope. -/
def updatePassword (newPassword : String)
    (env : UpdateRequest → ExtResult (Option User)) (now : Nat) (s : Storage) :
    Except String (Option User × Storage) :=
  match env (UpdateRequest.password newPassword) with
  | ExtResult.err e => Except.error e
  | ExtResult.thrown e => Except.error e
  | ExtResult.ok u => Except.ok (u, mergeUserIntoCache u now s)

/-- Storage states reachable within one storage lifetime: from empty
storage by the `sessionManager` primitives that touch storage. Every
facade operation mutates storage only through these (`signOut` through
`clearSession`, `getCurrentUser` through the cache read, the update and
init operations through read/save/clear), so their results stay in this
set. -/
inductive Reachable : Storage → Prop where
  | empty : Reachable emptyStorage
  | save (sess : Option SessionRecord) (now : Nat) (s : Storage) :
      Reachable s → Reachable (saveSession sess now s)
  | clear (s : Storage) : Reachable s → Reachable (clearSession s)
  | markActive (s : Storage) : Reachable s → Reachable (markSessionActive s)
  | load (now : Nat) (s : Storage) : Reachable s → Reachable (getStoredSession now s).2

/-- Concrete sample user for instantiating theorems. -/
def sampleUser : User := { id := "u3" }

/-- A valid cached session record with a refresh token. -/
def cachedRec : SessionRecord :=
  { user := some sampleUser, access_token := some "oldTok", refresh_token := some "rt" }

/-- Storage holding `cachedRec` in the session slot. -/
def cachedStore : Storage := { session := some (StoredBlob.record cachedRec) }

/-- The session a successful refresh returns. -/
def refreshedRec : SessionRecord :=
  { user := some sampleUser, access_token := some "newTok", refresh_token := some "rt2" }

/-- The cache read leaves storage alone or clears it wholesale. -/
theorem getStoredSession_storage (now : Nat) (s : Storage) :
    (getStoredSession now s).2 = s ∨ (getStoredSession now s).2 = clearSession s := by
  unfold getStoredSession
  cases hs : s.session with
  | none => exact Or.inl rfl
  | some blob =>
      cases blob with
      | malformed => exact Or.inr rfl
      | record r =>
          dsimp only
          split
          · exact Or.inr rfl
          · split
            · exact Or.inr rfl
            · exact Or.inl rfl

/-- In any reachable storage state the active flag is absent or the literal
`"true"` the source writes. -/
theorem reachable_flag (s : Storage) (h : Reachable s) :
    s.sessionActive = none ∨ s.sessionActive = some "true" := by
  induction h with
  | empty => exact Or.inl rfl
  | save sess now s _ ih =>
      cases sess with
      | none => exact ih
      | some sess => exact Or.inr rfl
  | clear s _ _ => exact Or.inl rfl
  | markActive s _ _ => exact Or.inr rfl
  | load now s _ ih =>
      rcases getStoredSession_storage now s with h2 | h2
      · rw [h2]; exact ih
      · rw [h2]; exact Or.inl rfl

/-! ### Claim theorems -/

/-- C10: calling `save` with a null or undefined session is a silent no-op —
it returns (the model is a total function, so it cannot throw) and leaves
every storage slot (session record, auth key, auth timestamp, active flag)
unchanged. -/
theorem saveSession_null_noop (now : Nat) (s : Storage) :
    saveSession none now s = s ∧
    (saveSession none now s).session = s.session ∧
    (saveSession none now s).auth = s.auth ∧
    (saveSession none now s).authTimestamp = s.authTimestamp ∧
    (saveSession none now s).sessionActive = s.sessionActive :=
  ⟨rfl, rfl, rfl, rfl, rfl⟩

/-- C4: `signOut` clears the session cache whether the external sign-out
returns a success envelope, an error envelope, or throws, and in every case
returns normally (`Except.ok`) — the external error never reaches the
caller. -/
theorem signOut_always_clears (outcome : ExtResult Unit) (s : Storage) :
    signOut outcome s = Except.ok ((), clearSession s) := by
  cases outcome <;> rfl

/-- C1 (amended): every stored-slot content in the failure list — slot
empty, unparseable record, record lacking a user or an access token, or a
*nonzero* expiry timestamp in the past — makes `load()` return `none`
without throwing, leaves the session slot empty afterwards, and (except on
the already-empty slot, which the source returns from before its clearing
paths) clears the whole session state. The amendment: the source guards
the expiry check with JS truthiness, so a stored expiry timestamp of `0`
is never treated as expired (see the counterexample). -/
theorem load_failure_paths (now : Nat) (s : Storage)
    (h : s.session = none ∨ s.session = some StoredBlob.malformed ∨
      ∃ r, s.session = some (StoredBlob.record r) ∧
        (r.user = none ∨ r.access_token = none ∨
          ∃ e : Int, r.expires_at = some e ∧ e ≠ 0 ∧ 1000 * e < (now : Int))) :
    (getStoredSession now s).1 = none ∧
    ((getStoredSession now s).2).session = none ∧
    (s.session ≠ none → (getStoredSession now s).2 = clearSession s) := by
  rcases h with hs | hs | ⟨r, hs, hr⟩
  · have key : getStoredSession now s = (none, s) := by
      unfold getStoredSession
      rw [hs]
    exact ⟨by rw [key], by rw [key]; exact hs, fun hne => absurd hs hne⟩
  · have key : getStoredSession now s = (none, clearSession s) := by
      unfold getStoredSession
      rw [hs]
    exact ⟨by rw [key], by rw [key]; rfl, fun _ => by rw [key]⟩
  · have key : getStoredSession now s = (none, clearSession s) := by
      unfold getStoredSession
      rw [hs]
      rcases hr with hu | ht | ⟨e, he, hne, hlt⟩
      · simp [hu]
      · simp [ht, truthyStr]
      · dsimp only
        by_cases hc : (!r.user.isSome || !truthyStr r.access_token) = true
        · rw [if_pos hc]
        · rw [if_neg hc]
          have h2 : (truthyInt r.expires_at &&
              decide ((now : Int) > 1000 * r.expires_at.getD 0)) = true := by
            simp [truthyInt, he, hne, hlt]
          rw [if_pos h2]
    exact ⟨by rw [key], by rw [key]; rfl, fun _ => by rw [key]⟩

/-- C1 witness: a record holding a nonzero expired timestamp (`5` s, read
at `now = 2000000` ms) hits the failure path — `load()` returns `none` and
clears storage. -/
theorem load_failure_paths_witness :
    (getStoredSession 2000000
      { session := some (StoredBlob.record
          { user := some { id := "u0" }, access_token := some "tok0",
            expires_at := some 5 }) }).1 = none ∧
    ((getStoredSession 2000000
      { session := some (StoredBlob.record
          { user := some { id := "u0" }, access_token := some "tok0",
            expires_at := some 5 }) }).2).session = none ∧
    (getStoredSession 2000000
      { session := some (StoredBlob.record
          { user := some { id := "u0" }, access_token := some "tok0",
            expires_at := some 5 }) }).2 =
      clearSession
        { session := some (StoredBlob.record
            { user := some { id := "u0" }, access_token := some "tok0",
              expires_at := some 5 }) } := by
  have h := load_failure_paths 2000000
    { session := some (StoredBlob.record
        { user := some { id := "u0" }, access_token := some "tok0",
          expires_at := some 5 }) }
    (Or.inr (Or.inr ⟨_, rfl, Or.inr (Or.inr ⟨5, rfl, by decide, by decide⟩)⟩))
  exact ⟨h.1, h.2.1, h.2.2 (by decide)⟩

/-- C1 counterexample: the claim says a stored expiry timestamp in the past
makes `load()` fail and clear storage. With `expires_at = 0` (the epoch,
in the past at `now = 2000000` ms, i.e. `Date.now()/1000 = 2000 > 0`) the
source skips the expiry check (`session.expires_at &&` is falsy at `0`):
`load()` returns the session and leaves storage untouched. -/
theorem load_zero_expiry_counterexample :
    (getStoredSession 2000000
      { session := some (StoredBlob.record
          { user := some { id := "u0" }, access_token := some "tok0",
            expires_at := some 0 }) }) =
      (some { user := some { id := "u0" }, access_token := some "tok0",
              expires_at := some 0 },
       { session := some (StoredBlob.record
           { user := some { id := "u0" }, access_token := some "tok0",
             expires_at := some 0 }) }) := by
  rfl

/-- C2 (amended): saving a well-formed session — a user, a *nonempty*
access token, and an expiry timestamp that (if present) is not in the past
at load time — then loading returns a record with the same `user`,
`access_token`, `refresh_token`, `expires_at`, `expires_in` and
`token_type`, plus the write timestamp `saved_at`, and the load leaves
storage as the save wrote it. The amendment: the source's validity check
is JS truthiness, so an *empty* access token is discarded on load (see the
counterexample); the claim's "an access token" must read "a nonempty
access token". -/
theorem save_load_roundtrip (sess : SessionRecord) (now1 now2 : Nat) (s : Storage)
    (hu : sess.user.isSome = true)
    (ht : truthyStr sess.access_token = true)
    (he : ∀ e : Int, sess.expires_at = some e → ¬ ((now2 : Int) > 1000 * e)) :
    getStoredSession now2 (saveSession (some sess) now1 s) =
      (some { user := sess.user, access_token := sess.access_token,
              refresh_token := sess.refresh_token, expires_at := sess.expires_at,
              expires_in := sess.expires_in, token_type := sess.token_type,
              saved_at := some (now1 : Int) },
       saveSession (some sess) now1 s) := by
  have h1 : (!sess.user.isSome || !truthyStr sess.access_token) = false := by
    simp [hu, ht]
  have h2 : (truthyInt sess.expires_at &&
      decide ((now2 : Int) > 1000 * sess.expires_at.getD 0)) = false := by
    cases hx : sess.expires_at with
    | none => simp [truthyInt]
    | some e =>
        by_cases hz : e = 0
        · simp [truthyInt, hz]
        · have hnp := he e hx
          simp [truthyInt, hz, hnp]
  unfold saveSession getStoredSession
  dsimp only
  rw [if_neg (by rw [h1]; exact Bool.false_ne_true), if_neg (by rw [h2]; exact Bool.false_ne_true)]

/-- C2 witness: a concrete well-formed session survives the round-trip with
its fields intact and `saved_at` stamped. -/
theorem save_load_roundtrip_witness :
    getStoredSession 2000
      (saveSession (some { user := some { id := "u1" }, access_token := some "tokA",
                           refresh_token := some "ref", expires_at := some 99999,
                           expires_in := some 3600, token_type := some "bearer" })
        1000 emptyStorage) =
      (some { user := some { id := "u1" }, access_token := some "tokA",
              refresh_token := some "ref", expires_at := some 99999,
              expires_in := some 3600, token_type := some "bearer",
              saved_at := some 1000 },
       saveSession (some { user := some { id := "u1" }, access_token := some "tokA",
                           refresh_token := some "ref", expires_at := some 99999,
                           expires_in := some 3600, token_type := some "bearer" })
         1000 emptyStorage) :=
  save_load_roundtrip
    { user := some { id := "u1" }, access_token := some "tokA",
      refresh_token := some "ref", expires_at := some 99999,
      expires_in := some 3600, token_type := some "bearer" }
    1000 2000 emptyStorage rfl rfl
    (fun e hx => by injection hx with hx; subst hx; decide)

/-- C2 counterexample: the session `{user, access_token: ""}` has a user
and an access token field and no expiry, so the claim as stated promises
the round-trip returns its fields; but the source's truthiness check
(`!session.access_token`) treats the empty token as missing and the load
returns `none` (and clears the slot the save just wrote). -/
theorem save_load_empty_token_counterexample :
    (getStoredSession 5
      (saveSession (some { user := some { id := "u1" }, access_token := some "" })
        3 emptyStorage)).1 = none := by
  rfl

/-- C3: when the external session read returns no session
(`getSession = ok none`) and the cache holds a session with a truthy
refresh token, `initializeSession` follows the refresh outcome: a refresh
success with a session is written through to the cache and returned; a
refresh error envelope clears the cache and returns `none`; a thrown
refresh (network failure) returns the stale cached session with storage
unmodified. -/
theorem initializeSession_refresh_cases (env : InitEnv) (now : Nat) (s : Storage)
    (st : SessionRecord)
    (hget : env.getSession = ExtResult.ok none)
    (hstored : getStoredSession now s = (some st, s))
    (hrt : truthyStr st.refresh_token = true) :
    (∀ rs, env.refreshSession (st.refresh_token.getD "") = ExtResult.ok (some rs) →
        initializeSession env now s = (some rs, saveSession (some rs) now s)) ∧
    (∀ e, env.refreshSession (st.refresh_token.getD "") = ExtResult.err e →
        initializeSession env now s = (none, clearSession s)) ∧
    (∀ e, env.refreshSession (st.refresh_token.getD "") = ExtResult.thrown e →
        initializeSession env now s = (some st, s)) := by
  have key : initializeSession env now s =
      (match env.refreshSession (st.refresh_token.getD "") with
       | ExtResult.err _ => (none, clearSession s)
       | ExtResult.ok (some rs) => (some rs, saveSession (some rs) now s)
       | ExtResult.ok none => (none, s)
       | ExtResult.thrown _ => (some st, s)) := by
    unfold initializeSession
    rw [hget, hstored]
    dsimp only
    rw [if_pos hrt]
  refine ⟨fun rs hx => ?_, fun e hx => ?_, fun e hx => ?_⟩ <;> rw [key, hx]

/-- C3 witness: `cachedStore` holds a valid session with refresh token
`"rt"`; the three oracles (refresh success, refresh error envelope, refresh
thrown) give write-through, clear, and stale fallback respectively. -/
theorem initializeSession_refresh_cases_witness :
    initializeSession
      { getSession := ExtResult.ok none,
        refreshSession := fun _ => ExtResult.ok (some refreshedRec) } 0 cachedStore =
      (some refreshedRec, saveSession (some refreshedRec) 0 cachedStore) ∧
    initializeSession
      { getSession := ExtResult.ok none,
        refreshSession := fun _ => ExtResult.err "revoked" } 0 cachedStore =
      (none, clearSession cachedStore) ∧
    initializeSession
      { getSession := ExtResult.ok none,
        refreshSession := fun _ => ExtResult.thrown "offline" } 0 cachedStore =
      (some cachedRec, cachedStore) := by
  refine ⟨?_, ?_, ?_⟩
  · exact (initializeSession_refresh_cases _ 0 cachedStore cachedRec rfl rfl rfl).1 _ rfl
  · exact (initializeSession_refresh_cases _ 0 cachedStore cachedRec rfl rfl rfl).2.1 "revoked" rfl
  · exact (initializeSession_refresh_cases _ 0 cachedStore cachedRec rfl rfl rfl).2.2 "offline" rfl

/-- C5: `getCurrentUser` never throws (always `Except.ok`); on a success
envelope it returns the envelope's user; on an error envelope or a thrown
call it returns the user embedded in the cached session — `none` when the
cache is empty or its record is invalid (the cache read then yields
nothing to bind the user from). -/
theorem getCurrentUser_fallback (outcome : ExtResult (Option User)) (now : Nat)
    (s : Storage) :
    (∃ p, getCurrentUser outcome now s = Except.ok p) ∧
    (∀ u, outcome = ExtResult.ok u → getCurrentUser outcome now s = Except.ok (u, s)) ∧
    (∀ e, outcome = ExtResult.err e →
      getCurrentUser outcome now s =
        Except.ok ((getStoredSession now s).1.bind SessionRecord.user,
          (getStoredSession now s).2)) ∧
    (∀ e, outcome = ExtResult.thrown e →
      getCurrentUser outcome now s =
        Except.ok ((getStoredSession now s).1.bind SessionRecord.user,
          (getStoredSession now s).2)) := by
  refine ⟨?_, fun u h => by subst h; rfl, fun e h => by subst h; rfl,
    fun e h => by subst h; rfl⟩
  cases outcome with
  | ok u => exact ⟨(u, s), rfl⟩
  | err e =>
      exact ⟨((getStoredSession now s).1.bind SessionRecord.user,
        (getStoredSession now s).2), rfl⟩
  | thrown e =>
      exact ⟨((getStoredSession now s).1.bind SessionRecord.user,
        (getStoredSession now s).2), rfl⟩

/-- C5 witness: with the external call rejecting, the cached user comes
back; with the cache also empty, `none` comes back — both without
throwing. -/
theorem getCurrentUser_fallback_witness :
    getCurrentUser (ExtResult.thrown "offline") 0 cachedStore =
      Except.ok (some sampleUser, cachedStore) ∧
    getCurrentUser (ExtResult.thrown "offline") 0 emptyStorage =
      Except.ok (none, emptyStorage) := by
  constructor
  · exact (getCurrentUser_fallback (ExtResult.thrown "offline") 0 cachedStore).2.2.2
      "offline" rfl
  · exact (getCurrentUser_fallback (ExtResult.thrown "offline") 0 emptyStorage).2.2.2
      "offline" rfl

/-- C6: for every nonempty new password (JS truthiness: the password branch
of `updateProfile` is the one guarded by `if (updates.password)`), every
oracle behaviour, every time and every storage state, `updatePassword`
equals `updateProfile` applied to a password-only update object: same
request sent (the oracle sees the same `UpdateRequest.password`), same
cache merge, same returned data, same error propagation. -/
theorem updatePassword_eq_password_branch (pw : String)
    (env : UpdateRequest → ExtResult (Option User)) (now : Nat) (nowIso : String)
    (s : Storage) (hpw : pw ≠ "") :
    updatePassword pw env now s =
      updateProfile { password := some pw } env now nowIso s := by
  unfold updatePassword updateProfile
  have hb : truthyStr (some pw) = true := by simp [truthyStr, hpw]
  rw [if_pos hb]
  dsimp only [Option.getD]

/-- C6 witness: concrete password, oracle and storage on both sides. -/
theorem updatePassword_eq_password_branch_witness :
    updatePassword "hunter2" (fun _ => ExtResult.ok (some sampleUser)) 0 cachedStore =
      updateProfile { password := some "hunter2" }
        (fun _ => ExtResult.ok (some sampleUser)) 0 "2026-01-01" cachedStore :=
  updatePassword_eq_password_branch "hunter2" (fun _ => ExtResult.ok (some sampleUser))
    0 "2026-01-01" cachedStore (by decide)

/-- C7: within a storage lifetime (states reachable from empty storage by
the session-cache operations) `isFresh()` is true exactly when the active
flag is absent; it is true at the start of the lifetime and false
immediately after `save` of an actual session (which sets the flag) or
after `markActive()`. -/
theorem isFreshSession_spec :
    (∀ s, Reachable s → (isFreshSession s = true ↔ s.sessionActive = none)) ∧
    isFreshSession emptyStorage = true ∧
    (∀ sess now s, isFreshSession (saveSession (some sess) now s) = false) ∧
    (∀ s, isFreshSession (markSessionActive s) = false) := by
  refine ⟨?_, rfl, fun sess now s => rfl, fun s => rfl⟩
  intro s hs
  rcases reachable_flag s hs with h | h
  · simp [isFreshSession, h]
  · simp [isFreshSession, h]

/-- C7 witness: the empty lifetime start is fresh and flag-free; a
`markActive` and a `save` each end freshness. -/
theorem isFreshSession_spec_witness :
    (isFreshSession emptyStorage = true ↔ emptyStorage.sessionActive = none) ∧
    isFreshSession (markSessionActive emptyStorage) = false ∧
    isFreshSession (saveSession (some cachedRec) 7 emptyStorage) = false :=
  ⟨isFreshSession_spec.1 emptyStorage Reachable.empty,
   isFreshSession_spec.2.2.2 emptyStorage,
   isFreshSession_spec.2.2.1 cachedRec 7 emptyStorage⟩

/-- C8 (amended): the metadata payload `signUp` sends carries a display
name equal to the provided one when a *nonempty* one is given and the
email's local part otherwise, the generated avatar URL for that same name,
the locale/timezone defaults (`language = "en"`, the environment timezone,
`theme = "system"`, the date format), and the boolean preference flags at
their defaults; and `signUp`'s behaviour depends on the oracle only
through the email, password and this payload (the request it sends). The
amendment: JS `fullName || …` falls back on an *empty* provided display
name too (see the counterexample), so "when one is given" must read "when
a nonempty one is given". -/
theorem signUpMeta_defaults (email : String) (fullName : Option String)
    (tz createdAt : String) :
    (∀ n, fullName = some n → n ≠ "" →
      (signUpMeta email fullName tz createdAt).full_name = n) ∧
    (fullName = none ∨ fullName = some "" →
      (signUpMeta email fullName tz createdAt).full_name = localPart email) ∧
    (signUpMeta email fullName tz createdAt).avatar_url =
      avatarUrl (signUpMeta email fullName tz createdAt).full_name ∧
    (signUpMeta email fullName tz createdAt).language = "en" ∧
    (signUpMeta email fullName tz createdAt).timezone = tz ∧
    (signUpMeta email fullName tz createdAt).theme = "system" ∧
    (signUpMeta email fullName tz createdAt).date_format = "MM/DD/YYYY" ∧
    (signUpMeta email fullName tz createdAt).email_notifications = true ∧
    (signUpMeta email fullName tz createdAt).marketing_emails = false ∧
    (signUpMeta email fullName tz createdAt).security_alerts = true ∧
    (signUpMeta email fullName tz createdAt).two_factor_enabled = false ∧
    (∀ (password : String) (now : Nat) (store : Storage)
        (env env2 : String → String → SignUpMeta → ExtResult SignUpResp),
      env email password (signUpMeta email fullName tz createdAt) =
        env2 email password (signUpMeta email fullName tz createdAt) →
      signUp email password fullName tz createdAt env now store =
        signUp email password fullName tz createdAt env2 now store) := by
  refine ⟨?_, ?_, rfl, rfl, rfl, rfl, rfl, rfl, rfl, rfl, rfl, ?_⟩
  · intro n h hne
    subst h
    simp [signUpMeta, hne]
  · intro h
    rcases h with h | h <;> subst h <;> rfl
  · intro password now store env env2 h
    unfold signUp
    rw [h]

/-- C8 witness: a nonempty provided name is used verbatim; with no name
the payload falls back to the email's local part, and the timezone passes
through. -/
theorem signUpMeta_defaults_witness :
    (signUpMeta "jo@ex.com" (some "Jo") "UTC" "t0").full_name = "Jo" ∧
    (signUpMeta "jo@ex.com" none "UTC" "t0").full_name = "jo" ∧
    (signUpMeta "jo@ex.com" none "UTC" "t0").timezone = "UTC" := by
  refine ⟨(signUpMeta_defaults "jo@ex.com" (some "Jo") "UTC" "t0").1 "Jo" rfl (by decide),
    ?_, (signUpMeta_defaults "jo@ex.com" none "UTC" "t0").2.2.2.2.1⟩
  have h := (signUpMeta_defaults "jo@ex.com" none "UTC" "t0").2.1 (Or.inl rfl)
  rw [h]
  decide

/-- C8 counterexample: with `displayName = ""` (a display name is given)
and email `"a@x"`, the claim as stated says the payload's display name is
`""`; the source computes `fullName || email.split('@')[0]`, and JS `||`
treats `""` as absent, so the payload carries `"a"`. -/
theorem signUp_empty_name_counterexample :
    (signUpMeta "a@x" (some "") "UTC" "t0").full_name = "a" ∧
    ¬ (signUpMeta "a@x" (some "") "UTC" "t0").full_name = "" := by
  constructor
  · decide
  · decide

/-- The shared cache merge changes nothing when the session slot is
empty: the cache read yields no stored session, so no save happens. -/
theorem mergeUser_empty_cache (u : Option User) (now : Nat) (s : Storage)
    (h : s.session = none) : mergeUserIntoCache u now s = s := by
  cases u with
  | none => rfl
  | some usr =>
      unfold mergeUserIntoCache getStoredSession
      rw [h]

/-- C9 (amended): when a password or metadata update via `updateProfile`
or `updatePassword` succeeds but the session slot is *empty*, no cache
write occurs: the operation returns the external envelope and every
storage slot is unchanged. The amendment: the claim's "no valid stored
session" also covers a slot holding an invalid or expired record, and
there the success path's cache read clears the record as a side effect
(see the counterexample) — success still never *creates* a cache entry,
but storage is only untouched when the slot was empty. -/
theorem update_success_no_cache_create
    (env : UpdateRequest → ExtResult (Option User)) (now : Nat) (nowIso : String)
    (s : Storage) (hempty : s.session = none) :
    (∀ pw u, env (UpdateRequest.password pw) = ExtResult.ok u →
      updatePassword pw env now s = Except.ok (u, s)) ∧
    (∀ (updates : ProfileUpdates) (u : Option User),
      truthyStr updates.password = true →
      env (UpdateRequest.password (updates.password.getD "")) = ExtResult.ok u →
      updateProfile updates env now nowIso s = Except.ok (u, s)) ∧
    (∀ (updates : ProfileUpdates) (u : Option User),
      truthyStr updates.password = false →
      env (UpdateRequest.metadata
        (match updates.data with
         | some d => UpdateData.fromData d
         | none => UpdateData.fromUpdates updates) nowIso) = ExtResult.ok u →
      updateProfile updates env now nowIso s = Except.ok (u, s)) := by
  refine ⟨fun pw u hx => ?_, fun updates u hb hx => ?_, fun updates u hb hx => ?_⟩
  · unfold updatePassword
    rw [hx]
    dsimp only
    rw [mergeUser_empty_cache u now s hempty]
  · unfold updateProfile
    rw [if_pos hb, hx]
    dsimp only
    rw [mergeUser_empty_cache u now s hempty]
  · unfold updateProfile
    rw [if_neg (by rw [hb]; exact Bool.false_ne_true)]
    dsimp only
    rw [hx]
    dsimp only
    rw [mergeUser_empty_cache u now s hempty]

/-- C9 witness: with an empty cache, a successful password update (direct
and via `updateProfile`) and a successful metadata update all return the
envelope and leave storage untouched. -/
theorem update_success_no_cache_create_witness :
    updatePassword "pw9" (fun _ => ExtResult.ok (some sampleUser)) 7 emptyStorage =
      Except.ok (some sampleUser, emptyStorage) ∧
    updateProfile { password := some "pw9" }
      (fun _ => ExtResult.ok (some sampleUser)) 7 "iso" emptyStorage =
      Except.ok (some sampleUser, emptyStorage) ∧
    updateProfile { full_name := some "New Name" }
      (fun _ => ExtResult.ok (some sampleUser)) 7 "iso" emptyStorage =
      Except.ok (some sampleUser, emptyStorage) := by
  refine ⟨?_, ?_, ?_⟩
  · exact (update_success_no_cache_create _ 7 "iso" emptyStorage rfl).1 "pw9" _ rfl
  · exact (update_success_no_cache_create _ 7 "iso" emptyStorage rfl).2.1 _ _ rfl rfl
  · exact (update_success_no_cache_create _ 7 "iso" emptyStorage rfl).2.2 _ _ rfl rfl

/-- C9 counterexample: the cache slot holds a record that is invalid at
read time (nonzero expiry `5` s, read at `now = 2000000` ms) — "no valid
stored session". A successful `updatePassword` then does change storage:
the success path's cache read clears the stored record, so the slots are
not all unchanged as the claim states. -/
theorem update_clears_invalid_cache_counterexample :
    updatePassword "npw" (fun _ => ExtResult.ok (some { id := "u2" })) 2000000
      { session := some (StoredBlob.record
          { user := some { id := "u2" }, access_token := some "tk",
            expires_at := some 5 }) } =
      Except.ok (some { id := "u2" },
        { session := none, auth := none, authTimestamp := none,
          sessionActive := none }) ∧
    ({ session := some (StoredBlob.record
         { user := some { id := "u2" }, access_token := some "tk",
           expires_at := some 5 }) } : Storage) ≠
      { session := none, auth := none, authTimestamp := none,
        sessionActive := none } := by
  constructor
  · rfl
  · decide

end Kodex
